import Mathlib

/-!
Verification of the self-learning RAG workflow of this repository
(`src/lib/ai/graphs/rag-workflow.ts` and the utilities under `src/lib/ai/utils/`).

The TypeScript sources are shallowly embedded below:
* JavaScript strings are modeled as `String` / `List Char` (one `Char` per
  JS character; `String.prototype.length` becomes the character count);
* JS numbers are modeled as exact `ℚ` where only comparisons against the
  thresholds in the code matter (the workflow, evaluation and refinement
  scores), and as `ℝ` where square roots occur (cosine similarity);
* `throw` is modeled by `Except` / `Option` result types;
* external services (LLM, embeddings, database) are oracle parameters:
  a call's outcome (success value or thrown error) is an explicit input.
-/

namespace SchoolRag

/-! ## Shared JavaScript string helpers -/

/-- Model of JS `\s` (ASCII whitespace as covered by `Char.isWhitespace`). -/
def isJsWs (c : Char) : Bool := c.isWhitespace

/-- Model of `String.prototype.toLowerCase` (ASCII case mapping). -/
def jsLowerChars (s : List Char) : List Char := s.map Char.toLower

/-- Model of `String.prototype.trim`: drop whitespace from both ends. -/
def trimChars (s : List Char) : List Char :=
  ((s.dropWhile isJsWs).reverse.dropWhile isJsWs).reverse

/-- Model of `String.prototype.trim` on `String`. -/
def jsTrim (s : String) : String := ⟨trimChars s.data⟩

/-- One-pass scanner implementing JS `s.split(/\s+/)`.
The state is `none` right after a whitespace run was consumed and
`some cur` while a (reversed) token `cur` is being accumulated. -/
def splitWsGo : List Char → Option (List Char) → List (List Char)
  | [], none => [[]]
  | [], some cur => [cur.reverse]
  | c :: cs, none =>
      if isJsWs c then splitWsGo cs none else splitWsGo cs (some [c])
  | c :: cs, some cur =>
      if isJsWs c then cur.reverse :: splitWsGo cs none
      else splitWsGo cs (some (c :: cur))

/-- Model of JS `s.split(/\s+/)`: tokens separated by maximal whitespace
runs, with an empty leading (resp. trailing) element when the string starts
(resp. ends) with whitespace, and `[""]` for the empty string. -/
def jsSplitWs (s : List Char) : List (List Char) := splitWsGo s (some [])

/-- JS truthiness of an optional string: `undefined` and `""` are falsy. -/
def jsTruthyStr : Option String → Bool
  | none => false
  | some s => !(s == "")

/-- Worker for `jsUniqueFirst`: keep an element iff it was not seen yet. -/
def jsUniqueFirstGo (seen : List String) : List String → List String
  | [] => []
  | x :: xs =>
      if x ∈ seen then jsUniqueFirstGo seen xs
      else x :: jsUniqueFirstGo (x :: seen) xs

/-- Keep-first deduplication, as in
`.filter((source, idx, self) => self.indexOf(source) === idx)`. -/
def jsUniqueFirst (l : List String) : List String := jsUniqueFirstGo [] l

/-- Does `hay` start with `needle`? (helper for `jsIncludes`). -/
def startsWithSeg : List Char → List Char → Bool
  | [], _ => true
  | _ :: _, [] => false
  | a :: as, b :: bs => a == b && startsWithSeg as bs

/-- Model of JS `hay.includes(needle)`: contiguous substring test. -/
def jsIncludes (hay needle : List Char) : Bool :=
  match hay with
  | [] => needle.isEmpty
  | _ :: t => startsWithSeg needle hay || jsIncludes t needle

/-! ## Vector store (`src/lib/ai/utils/vector-store.ts`)

Embedding vectors are lists of reals (JS `number[]`). -/

namespace Vec

open scoped Classical in
/-- Embedding of `cosineSimilarity` (vector-store.ts lines 31-54).
The JS `throw new Error("Vectors must have same length")` on a dimension
mismatch is modeled by returning `none`; the accumulation loops computing
`dotProduct`, `normA`, `normB` are written as the corresponding list sums. -/
noncomputable def cosineSimilarity (vecA vecB : List ℝ) : Option ℝ :=
  if vecA.length ≠ vecB.length then none
  else
    let dotProduct := (List.zipWith (fun a b => a * b) vecA vecB).sum
    let normA := Real.sqrt ((vecA.map (fun a => a * a)).sum)
    let normB := Real.sqrt ((vecB.map (fun b => b * b)).sum)
    if normA = 0 ∨ normB = 0 then some 0
    else some (dotProduct / (normA * normB))

/-- User role, as in the `userRole` option of `retrieveDocuments`. -/
inductive Role where
  | teacher
  | student
deriving DecidableEq, Repr

/-- A stored `aIDocumentChunk` row together with the document columns the
query selects. The `embedding` column (a JSON-encoded vector, `null` when
absent) is modeled as an already-parsed optional vector. -/
structure DBChunk where
  id : String
  content : String
  embedding : Option (List ℝ)
  documentTitle : String
  subject : Option String
  gradeLevel : Option Nat
  isPublic : Bool

/-- Options of `retrieveDocuments` (`topK` defaults to 5 at the call sites). -/
structure RetrievalOptions where
  subject : Option String
  gradeLevel : Option Nat
  userRole : Role
  topK : Nat

/-- The Prisma `whereClause` built in `retrieveDocuments` (lines 75-97):
optional subject and grade filters, and `isPublic: true` for students. -/
def matchesFilter (o : RetrievalOptions) (c : DBChunk) : Bool :=
  (match o.subject with
   | none => true
   | some s => c.subject == some s) &&
  (match o.gradeLevel with
   | none => true
   | some g => c.gradeLevel == some g) &&
  (match o.userRole with
   | .teacher => true
   | .student => c.isPublic)

/-- One scored chunk as returned by `retrieveDocuments`. -/
structure ScoredChunk where
  id : String
  content : String
  documentTitle : String
  score : ℝ

/-- The `.map`/`.filter` pass of `retrieveDocuments` (lines 117-139): chunks
without an embedding are dropped; a dimension mismatch inside
`cosineSimilarity` throws, aborting the whole call. -/
noncomputable def scoreChunks (queryEmbedding : List ℝ) :
    List DBChunk → Except String (List ScoredChunk)
  | [] => .ok []
  | c :: cs =>
    match c.embedding with
    | none => scoreChunks queryEmbedding cs
    | some e =>
      match cosineSimilarity queryEmbedding e with
      | none => .error "Vectors must have same length"
      | some sc =>
        (scoreChunks queryEmbedding cs).map
          (fun rest => ⟨c.id, c.content, c.documentTitle, sc⟩ :: rest)

open scoped Classical in
/-- The comparator `(a, b) => b.score - a.score`: keep `a` before `b`
exactly when `b.score ≤ a.score` (descending, stable). -/
noncomputable def scoreDescLe (a b : ScoredChunk) : Bool :=
  decide (b.score ≤ a.score)

/-- Embedding of `retrieveDocuments` (vector-store.ts lines 59-150).
The query embedding is an oracle input (the external embedding service);
the store rows are `chunks`, of which the database returns the first 100
matching the filter (`take: 100`). -/
noncomputable def retrieveDocuments (queryEmbedding : List ℝ)
    (chunks : List DBChunk) (o : RetrievalOptions) :
    Except String (List ScoredChunk) :=
  (scoreChunks queryEmbedding ((chunks.filter (matchesFilter o)).take 100)).map
    (fun scored => (scored.mergeSort scoreDescLe).take o.topK)

end Vec

/-! ## Workflow-level documents and scores

The workflow, answer generation, evaluation and refinement only compare
scores against fixed decimal thresholds, so their numbers are modeled as
exact rationals. A retrieved document is carried with the fields the code
reads: its `metadata.documentTitle` and its similarity `score`. -/

/-- A retrieved document as seen by the workflow nodes. -/
structure ScoredDoc where
  id : String
  content : String
  documentTitle : String
  score : ℚ
deriving DecidableEq, Repr

namespace Gen

/-- Result record of `generateAnswer` (answer-generation.ts lines 197-207).
`answer` is the (oracle) LLM output after `.trim()`. -/
structure GenerationResult where
  answer : String
  confidence : ℚ
  sources : List String
  tokenUsage : Nat
deriving Repr

/-- `estimateTokens` (answer-generation.ts lines 323-326): `ceil(len / 4)`. -/
def estimateTokens (text : String) : Nat := (text.length + 3) / 4

/-- Embedding of the result computation of `generateAnswer`
(answer-generation.ts lines 81-212). The LLM call itself is the oracle
input `llmAnswer`; the deterministic part extracts the sources
(score > 0.5, titles deduplicated keep-first, at most 5) and derives
the confidence `min(avgRelevance * 1.2, 1.0)` where `avgRelevance` is
`sum of scores / (length || 1)`. -/
def generateAnswer (llmAnswer : String) (retrievedDocuments : List ScoredDoc) :
    GenerationResult :=
  let answer := jsTrim llmAnswer
  let sources :=
    (jsUniqueFirst
      (((retrievedDocuments.filter (fun d => d.score > 0.5)).map
        (fun d => d.documentTitle)))).take 5
  let avgRelevance :=
    (retrievedDocuments.map (fun d => d.score)).sum /
      (if retrievedDocuments.length = 0 then 1 else (retrievedDocuments.length : ℚ))
  let confidence := min (avgRelevance * 1.2) 1
  { answer := answer
    confidence := confidence
    sources := sources
    tokenUsage := estimateTokens answer }

end Gen

namespace SelfEval

/-- Result of `evaluateAnswer` / `heuristicEvaluation`. -/
structure EvalResult where
  score : ℚ
  feedback : String
  strengths : List String
  improvements : List String
deriving Repr

/-- The word count of the answer: `generatedAnswer.split(/\s+/).length`. -/
def answerWordCount (generatedAnswer : String) : Nat :=
  (jsSplitWs generatedAnswer.data).length

/-- The query keywords:
`query.toLowerCase().split(/\s+/).filter((word) => word.length > 3)`. -/
def queryKeywordList (query : String) : List (List Char) :=
  (jsSplitWs (jsLowerChars query.data)).filter (fun w => 3 < w.length)

/-- `keywordsAddressed`: the keywords contained in the lower-cased answer. -/
def keywordsAddressedCount (query generatedAnswer : String) : Nat :=
  ((queryKeywordList query).filter
    (fun kw => jsIncludes (jsLowerChars generatedAnswer.data) kw)).length

/-- `keywordCoverage = keywordsAddressed / (queryKeywords.length || 1)`. -/
def keywordCoverageOf (query generatedAnswer : String) : ℚ :=
  (keywordsAddressedCount query generatedAnswer : ℚ) /
    (if (queryKeywordList query).length = 0 then 1
     else ((queryKeywordList query).length : ℚ))

/-- `avgRelevance`: average document score (only read when at least one
document is present, so plain division models the JS expression). -/
def avgRetrievalScore (docs : List ScoredDoc) : ℚ :=
  (docs.map (fun d => d.score)).sum / (docs.length : ℚ)

/-- Embedding of `heuristicEvaluation` (self-evaluation utility lines
495-575), the deterministic fallback used whenever the LLM evaluation call
fails or its output cannot be parsed. The sequential mutations of `score`,
`strengths` and `improvements` are written as shadowing `let`s; the local
variables `answerLength`, `keywordCoverage` and `avgRelevance` are the
named helper definitions above. -/
def heuristicEvaluation (query generatedAnswer : String)
    (retrievedDocuments : List ScoredDoc) (confidence : ℚ) : EvalResult :=
  let score : ℚ := 0.5
  let strengths : List String := []
  let improvements : List String := []
  -- Check answer length
  let answerLength := answerWordCount generatedAnswer
  let score := if 30 < answerLength ∧ answerLength < 500 then score + 0.1
    else if answerLength < 30 then score - 0.1 else score
  let strengths := if 30 < answerLength ∧ answerLength < 500 then
    strengths ++ ["Answer has appropriate length"] else strengths
  let improvements := if 30 < answerLength ∧ answerLength < 500 then improvements
    else if answerLength < 30 then improvements ++ ["Answer may be too brief"]
    else improvements ++ ["Answer may be too verbose"]
  -- Check if question keywords are addressed
  let keywordCoverage := keywordCoverageOf query generatedAnswer
  let score := if keywordCoverage > 0.6 then score + 0.15 else score - 0.1
  let strengths := if keywordCoverage > 0.6 then
    strengths ++ ["Answer addresses key concepts from the question"] else strengths
  let improvements := if keywordCoverage > 0.6 then improvements
    else improvements ++ ["Answer may not fully address all aspects of the question"]
  -- Check document usage
  let avgRelevance := avgRetrievalScore retrievedDocuments
  let score := if retrievedDocuments.length > 0 then
      (if avgRelevance > 0.7 then score + 0.15
       else if avgRelevance < 0.4 then score - 0.15 else score)
    else score - 0.2
  let strengths := if retrievedDocuments.length > 0 ∧ avgRelevance > 0.7 then
    strengths ++ ["High-quality relevant documents were used"] else strengths
  let improvements := if retrievedDocuments.length > 0 then
      (if avgRelevance > 0.7 then improvements
       else if avgRelevance < 0.4 then
         improvements ++ ["Retrieved documents may not be highly relevant"]
       else improvements)
    else improvements ++ ["No context documents were used"]
  -- Factor in confidence, then clamp
  let score := score * 0.7 + confidence * 0.3
  let score := max 0 (min 1 score)
  let feedback := if score > 0.7 then "Answer appears to be of good quality"
    else if score > 0.5 then "Answer is acceptable but could be improved"
    else "Answer may need significant improvement"
  { score := score
    feedback := feedback
    strengths := strengths
    improvements := improvements }

/-- The word-count adjustment actually performed by `heuristicEvaluation`:
`+0.1` for a word count strictly between 30 and 500, `-0.1` strictly below
30, and no change at exactly 30 or at 500 and above. -/
def lengthAdjustment (answerLength : Nat) : ℚ :=
  if 30 < answerLength ∧ answerLength < 500 then 0.1
  else if answerLength < 30 then -0.1 else 0

/-- The keyword adjustment actually performed: `+0.15` only for coverage
strictly above 60%, `-0.1` otherwise (also at exactly 60%). -/
def keywordAdjustment (coverage : ℚ) : ℚ :=
  if coverage > 0.6 then 0.15 else -0.1

/-- The retrieval adjustment: `-0.2` with no documents, else `+0.15` for
average score above 0.7, `-0.15` below 0.4, `0` in between. -/
def retrievalAdjustment (docCount : Nat) (avgScore : ℚ) : ℚ :=
  if docCount > 0 then
    (if avgScore > 0.7 then 0.15 else if avgScore < 0.4 then -0.15 else 0)
  else -0.2

/-- The heuristic score as a closed formula over the three adjustments,
blended with the confidence and clamped to `[0, 1]`. -/
def heuristicScoreFormula (answerLength : Nat) (coverage : ℚ)
    (docCount : Nat) (avgScore : ℚ) (confidence : ℚ) : ℚ :=
  max 0 (min 1
    ((0.5 + lengthAdjustment answerLength + keywordAdjustment coverage
        + retrievalAdjustment docCount avgScore) * 0.7 + confidence * 0.3))

/-- The score claimed by the specification sentence for the fallback
heuristic, taken literally: `+0.1` for a word count in the closed interval
`[30, 500]` and `-0.1` otherwise, `+0.15` for keyword coverage of at least
60% and `-0.1` otherwise, the same retrieval adjustment, then the same
blend and clamp. -/
def claimHeuristicScore (answerLength : Nat) (coverage : ℚ)
    (docCount : Nat) (avgScore : ℚ) (confidence : ℚ) : ℚ :=
  let lengthAdj : ℚ := if 30 ≤ answerLength ∧ answerLength ≤ 500 then 0.1 else -0.1
  let keywordAdj : ℚ := if coverage ≥ 0.6 then 0.15 else -0.1
  let retrievalAdj : ℚ :=
    if docCount = 0 then -0.2
    else if avgScore > 0.7 then 0.15 else if avgScore < 0.4 then -0.15 else 0
  max 0 (min 1
    ((0.5 + lengthAdj + keywordAdj + retrievalAdj) * 0.7 + confidence * 0.3))

end SelfEval

namespace Refine

/-- An `aIQueryRefinement` row (the RefinementRecord of the data model). -/
structure RefinementRecord where
  originalQuery : String
  refinedQuery : String
  mode : String
  subject : Option String
  improvementScore : Option ℚ
  usageCount : Nat
  lastUsed : Nat
deriving DecidableEq, Repr

/-- The Prisma `findFirst` filter of `storeRefinementAttempt` (query
refinement utility lines 123-136): case-insensitive equality on the
original and refined query texts (`mode: "insensitive"`), exact equality
on `mode`, and a `subject` filter only when a subject is provided
(`subject: undefined` disables the filter). -/
def refinementMatches (orig refined mode : String) (subject : Option String)
    (r : RefinementRecord) : Bool :=
  (jsLowerChars r.originalQuery.data == jsLowerChars orig.data) &&
  (jsLowerChars r.refinedQuery.data == jsLowerChars refined.data) &&
  (r.mode == mode) &&
  (match subject with
   | none => true
   | some s => r.subject == some s)

/-- Embedding of `storeRefinementAttempt` (lines 115-164): update the first
matching record (incrementing `usageCount` and refreshing `lastUsed`), or
append a fresh record with `usageCount = 1` and a null score. The store is
the list of rows in database order; `now` models `new Date()`. -/
def storeRefinementAttempt (now : Nat) (orig refined mode : String)
    (subject : Option String) : List RefinementRecord → List RefinementRecord
  | [] => [⟨orig, refined, mode, subject, none, 1, now⟩]
  | r :: rs =>
      if refinementMatches orig refined mode subject r then
        { r with usageCount := r.usageCount + 1, lastUsed := now } :: rs
      else r :: storeRefinementAttempt now orig refined mode subject rs

/-- Embedding of `refineQuery` (lines 19-110). Attempt 0 returns the
original query untouched. On a later attempt the LLM rewrite call is the
oracle `llm`: on success its output is trimmed, persisted through
`storeRefinementAttempt` and returned; if the call throws, the `catch`
returns the original query — without persisting anything. Returns the
refined query together with the updated store. -/
def refineQuery (store : List RefinementRecord) (now : Nat)
    (llm : Except String String) (originalQuery mode : String)
    (subject : Option String) (attemptNumber : Nat) :
    String × List RefinementRecord :=
  if attemptNumber = 0 then (originalQuery, store)
  else
    match llm with
    | .ok out =>
        let refinedQuery := jsTrim out
        (refinedQuery,
         storeRefinementAttempt now originalQuery refinedQuery mode subject store)
    | .error _ => (originalQuery, store)

/-- Total usage count of the records matching a refinement key. -/
def usageFor (store : List RefinementRecord) (orig refined mode : String)
    (subject : Option String) : Nat :=
  ((store.filter (refinementMatches orig refined mode subject)).map
    (fun r => r.usageCount)).sum

end Refine

namespace Chunk

/-! ## Chunker (`src/lib/ai/utils/document-processing.ts`, `chunkDocument`)

Text is a `List Char` (one entry per JS character). -/

/-- Sentence terminators, the character class `[.!?]`. -/
def isTerm (c : Char) : Bool := c == '.' || c == '!' || c == '?'

/-- Scanner state for `msGo`: skipping characters that cannot start a
match, accumulating the `[^.!?]+` body, or accumulating the `[.!?]+`
punctuation run (accumulators are reversed). -/
inductive MSState where
  | skip
  | body (acc : List Char)
  | punct (acc : List Char)

/-- One-pass scanner implementing `text.match(/[^.!?]+[.!?]+/g)`:
greedily take a maximal non-terminator run followed by a maximal
terminator run, repeatedly; text not covered by a match is dropped. -/
def msGo : List Char → MSState → List (List Char)
  | [], .skip => []
  | [], .body _ => []
  | [], .punct acc => [acc.reverse]
  | c :: cs, .skip =>
      if isTerm c then msGo cs .skip else msGo cs (.body [c])
  | c :: cs, .body acc =>
      if isTerm c then msGo cs (.punct (c :: acc)) else msGo cs (.body (c :: acc))
  | c :: cs, .punct acc =>
      if isTerm c then msGo cs (.punct (c :: acc))
      else acc.reverse :: msGo cs (.body [c])

/-- `text.match(/[^.!?]+[.!?]+/g) || [text]` (line 169): the sentence list,
falling back to the whole text when the regex finds no match. -/
def splitSentences (text : List Char) : List (List Char) :=
  match msGo text .skip with
  | [] => [text]
  | ms => ms

/-- JS `Array.prototype.slice(start, stop)` on lists. -/
def jsSlice (l : List (List Char)) (start stop : Nat) : List (List Char) :=
  (l.take stop).drop start

/-- JS `Array.prototype.join(" ")`. -/
def joinSpace : List (List Char) → List Char
  | [] => []
  | [x] => x
  | x :: xs => x ++ ' ' :: joinSpace xs

/-- One emitted chunk: its content and the metadata fields set by
`chunkDocument` (`documentTitle` is shared, so kept in the options). -/
structure ChunkRec where
  content : List Char
  sentenceStart : Nat
  sentenceEnd : Nat
  chunkIndex : Nat
deriving DecidableEq, Repr

/-- Options of `chunkDocument`. -/
structure ChunkOptions where
  chunkSize : Nat
  chunkOverlap : Nat
  documentTitle : List Char
deriving Repr

/-- The overlap seed built at an overflow at sentence index `i`
(line 196-197): the up-to-two preceding sentences, joined with spaces,
followed by a space and the trimmed current sentence. Note the seed uses
the *untrimmed* stored sentences and is not checked against the size
bound. -/
def seedAt (ss : List (List Char)) (i : Nat) : List Char :=
  joinSpace (jsSlice ss (i - 2) i) ++ ' ' :: trimChars (ss.getD i [])

/-- The sentence loop of `chunkDocument` (lines 175-213). `pending` is the
not-yet-processed tail of the sentence array `ss` starting at index `i`
(the JS loop accesses `sentences[i]` and slices `sentences` by index, so
the full array is carried alongside). -/
def chunkLoop (ss : List (List Char)) (chunkSize : Nat) :
    List (List Char) → Nat → List Char → Nat → List ChunkRec
  | [], _i, currentChunk, chunkIndex =>
      -- Add final chunk
      if currentChunk = [] then []
      else [⟨currentChunk, ss.length - 5, ss.length, chunkIndex⟩]
  | s :: rest, i, currentChunk, chunkIndex =>
      let sentence := trimChars s
      if (currentChunk ++ ' ' :: sentence).length ≤ chunkSize then
        chunkLoop ss chunkSize rest (i + 1)
          (if currentChunk = [] then sentence else currentChunk ++ ' ' :: sentence)
          chunkIndex
      else
        let seeded := joinSpace (jsSlice ss (i - 2) i) ++ ' ' :: sentence
        if currentChunk = [] then
          chunkLoop ss chunkSize rest (i + 1) seeded chunkIndex
        else
          ⟨currentChunk, i - 5, i, chunkIndex⟩ ::
            chunkLoop ss chunkSize rest (i + 1) seeded (chunkIndex + 1)

/-- Embedding of `chunkDocument` (lines 158-216). The destructured
`chunkOverlap` option is never read by the source body. -/
def chunkDocument (text : List Char) (options : ChunkOptions) : List ChunkRec :=
  let sentences := splitSentences text
  chunkLoop sentences options.chunkSize sentences 0 [] 0

/-- The overlap relation claimed by the specification between two
consecutive chunks: the final `min(chunkOverlap, length)` characters of
the first chunk reappear as the leading characters of the second. -/
def sharesConfiguredOverlap (chunkOverlap : Nat) (c d : List Char) : Prop :=
  d.take (min chunkOverlap c.length) = c.drop (c.length - min chunkOverlap c.length)

/-- The chunker claim taken literally: every chunk fits the size bound
except chunks that consist of a single (necessarily oversized) sentence,
and consecutive chunks share the configured overlap. -/
def chunkClaimHolds (text : List Char) (options : ChunkOptions) : Prop :=
  (∀ c ∈ chunkDocument text options,
    c.content.length ≤ options.chunkSize ∨
      ∃ s ∈ splitSentences text, c.content = trimChars s) ∧
  List.Chain' (fun c d =>
    sharesConfiguredOverlap options.chunkOverlap c.content d.content)
    (chunkDocument text options)

end Chunk

namespace Flow

/-! ## Workflow orchestrator (`src/lib/ai/graphs/rag-workflow.ts`)

The LangGraph state channels are a record; each node returns a partial
update, modeled as a record update. The external calls made inside the
nodes (query refinement, retrieval, generation, evaluation) are oracle
inputs: one `CycleOracle` per loop iteration supplies each call's outcome,
where `Except` captures a value or a thrown error. `evaluateAnswer` never
throws (its catch-all falls back to `heuristicEvaluation`), so its result
is a plain score and feedback. The `messages` channel and the analytics
logging (fire-and-forget, errors swallowed by `logAnalytics`) carry no
control flow and are elided. -/

/-- User role of the workflow request. -/
inductive Role where
  | teacher
  | student
deriving DecidableEq, Repr

/-- The `RAGState` channels read or written by the nodes. -/
structure RAGState where
  originalQuery : String
  refinedQuery : Option String
  userId : String
  userRole : Role
  mode : String
  subject : Option String
  gradeLevel : Option Nat
  conversationId : String
  retrievedDocuments : List ScoredDoc
  relevanceScores : Option (List ℚ)
  generatedAnswer : Option String
  confidence : Option ℚ
  sources : Option (List String)
  needsRefinement : Bool
  refinementAttempts : Nat
  evaluationScore : Option ℚ
  feedback : Option String
  tokenUsage : Nat
  error : Option String
deriving DecidableEq, Repr

/-- Successful result of the `generateAnswer` call, as consumed by
`answerGenerationNode`. -/
structure GenOutcome where
  answer : String
  confidence : ℚ
  sources : List String
  tokenUsage : Nat
deriving DecidableEq, Repr

/-- Outcomes of the external calls performed during one loop iteration. -/
structure CycleOracle where
  refineOutcome : Except String String
  retrievalOutcome : Except String (List ScoredDoc)
  generationOutcome : Except String GenOutcome
  evalScore : ℚ
  evalFeedback : String
deriving Repr

/-- `createInitialState` (rag-workflow.ts lines 66-87). -/
def createInitialState (query userId : String) (userRole : Role)
    (mode : String) (conversationId : String)
    (subject : Option String) (gradeLevel : Option Nat) : RAGState :=
  { originalQuery := query
    refinedQuery := none
    userId := userId
    userRole := userRole
    mode := mode
    subject := subject
    gradeLevel := gradeLevel
    conversationId := conversationId
    retrievedDocuments := []
    relevanceScores := none
    generatedAnswer := none
    confidence := none
    sources := none
    needsRefinement := false
    refinementAttempts := 0
    evaluationScore := none
    feedback := none
    tokenUsage := 0
    error := none }

/-- `queryRefinementNode` (lines 93-120): both the success path and the
catch set `refinedQuery` (the catch falls back to the original query) and
both increment `refinementAttempts`. -/
def queryRefinementNode (o : CycleOracle) (s : RAGState) : RAGState :=
  { s with
    refinedQuery := some (match o.refineOutcome with
      | .ok r => r
      | .error _ => s.originalQuery)
    refinementAttempts := s.refinementAttempts + 1 }

/-- `documentRetrievalNode` (lines 126-173): on success store the documents
and their scores; the catch stores an empty document list and the error
message. -/
def documentRetrievalNode (o : CycleOracle) (s : RAGState) : RAGState :=
  { s with
    retrievedDocuments := match o.retrievalOutcome with
      | .ok docs => docs
      | .error _ => []
    relevanceScores := match o.retrievalOutcome with
      | .ok docs => some (docs.map (fun d => d.score))
      | .error _ => s.relevanceScores
    error := match o.retrievalOutcome with
      | .ok _ => s.error
      | .error msg => some msg }

/-- The fixed apology answer of `answerGenerationNode`'s catch. -/
def generationApology : String :=
  "I apologize, but I encountered an error generating an answer. Please try again."

/-- `answerGenerationNode` (lines 179-220): on success store the answer,
confidence, sources and accumulate token usage; the catch stores the error
message and the fixed apology answer. -/
def answerGenerationNode (o : CycleOracle) (s : RAGState) : RAGState :=
  { s with
    generatedAnswer := some (match o.generationOutcome with
      | .ok g => g.answer
      | .error _ => generationApology)
    confidence := match o.generationOutcome with
      | .ok g => some g.confidence
      | .error _ => s.confidence
    sources := match o.generationOutcome with
      | .ok g => some g.sources
      | .error _ => s.sources
    tokenUsage := match o.generationOutcome with
      | .ok g => s.tokenUsage + g.tokenUsage
      | .error _ => s.tokenUsage
    error := match o.generationOutcome with
      | .ok _ => s.error
      | .error msg => some msg }

/-- `selfEvaluationNode` (lines 226-265): with a falsy (`undefined` or
empty) generated answer it short-circuits to score 0 and unconditionally
requests refinement; otherwise it stores the evaluation score and sets
`needsRefinement` iff the score is below 0.7, fewer than 3 refinement
attempts were made, and at least one document was retrieved. -/
def selfEvaluationNode (o : CycleOracle) (s : RAGState) : RAGState :=
  { s with
    evaluationScore := some (if jsTruthyStr s.generatedAnswer then o.evalScore else 0)
    needsRefinement :=
      if jsTruthyStr s.generatedAnswer then
        decide (o.evalScore < 0.7) && decide (s.refinementAttempts < 3) &&
          decide (s.retrievedDocuments.length > 0)
      else true
    feedback := if jsTruthyStr s.generatedAnswer then some o.evalFeedback else s.feedback }

/-- `shouldRefine` (lines 270-277): `true` stands for the edge `"refine"`
back to the refinement node, `false` for `"end"`. -/
def shouldRefine (s : RAGState) : Bool :=
  s.needsRefinement && decide (s.refinementAttempts < 3)

/-- One pass through the four graph nodes
(refine → retrieve → generate → evaluate). -/
def runCycle (o : CycleOracle) (s : RAGState) : RAGState :=
  selfEvaluationNode o
    (answerGenerationNode o (documentRetrievalNode o (queryRefinementNode o s)))

/-- The compiled graph's loop: run a cycle, and iterate again when
`shouldRefine` chooses `"refine"`. Termination holds because every cycle
increments `refinementAttempts` and the loop only continues while it is
below 3. -/
def runFrom (os : Nat → CycleOracle) (n : Nat) (s : RAGState) : RAGState :=
  let s' := runCycle (os n) s
  if shouldRefine s' then runFrom os (n + 1) s' else s'
termination_by 3 - s.refinementAttempts
decreasing_by
  rename_i h
  show 3 - s'.refinementAttempts < 3 - s.refinementAttempts
  simp only [shouldRefine, Bool.and_eq_true, decide_eq_true_eq] at h
  have ha : s'.refinementAttempts = s.refinementAttempts + 1 := rfl
  omega

/-- The fixed apology answer of `executeRAGWorkflow`'s catch. -/
def workflowApology : String :=
  "I apologize, but I encountered an error processing your request. Please try again."

/-- The record returned by `executeRAGWorkflow`; fields absent on one of
the two return paths are `Option`s. -/
structure ExecResult where
  success : Bool
  answer : Option String
  confidence : Option ℚ
  sources : Option (List String)
  documents : Option (List ScoredDoc)
  refinementAttempts : Option Nat
  evaluationScore : Option ℚ
  tokenUsage : Option Nat
  error : Option String
deriving DecidableEq, Repr

/-- Embedding of `executeRAGWorkflow` (lines 335-407). `invokeFault` models
an exception thrown by building or invoking the graph: `none` means the
invocation resolved (the graph itself never rejects: every node catches its
own errors), `some msg` lands in the catch, which logs and returns the
failure record instead of rethrowing. `logAnalytics` swallows its own
errors and is elided. -/
def executeRAGWorkflow (os : Nat → CycleOracle) (invokeFault : Option String)
    (query userId : String) (userRole : Role) (mode conversationId : String)
    (subject : Option String) (gradeLevel : Option Nat) : ExecResult :=
  match invokeFault with
  | some msg =>
      { success := false
        answer := some workflowApology
        confidence := none
        sources := none
        documents := none
        refinementAttempts := none
        evaluationScore := none
        tokenUsage := none
        error := some msg }
  | none =>
      let result := runFrom os 0
        (createInitialState query userId userRole mode conversationId subject gradeLevel)
      { success := !(jsTruthyStr result.error)
        answer := result.generatedAnswer
        confidence := result.confidence
        sources := result.sources
        documents := some result.retrievedDocuments
        refinementAttempts := some result.refinementAttempts
        evaluationScore := result.evaluationScore
        tokenUsage := some result.tokenUsage
        error := none }

end Flow

/-! # Theorems -/

/-! ## Cosine similarity (claims C4 and C9) -/

namespace Vec

theorem zipWith_mul_sum_eq (a : List ℝ) : ∀ b : List ℝ,
    (List.zipWith (fun x y => x * y) a b).sum =
      ∑ i in Finset.range (min a.length b.length), a.getD i 0 * b.getD i 0 := by
  induction a with
  | nil => intro b; simp
  | cons x xs ih =>
      intro b
      cases b with
      | nil => simp
      | cons y ys =>
          simp only [List.zipWith_cons_cons, List.sum_cons, List.length_cons,
            Nat.succ_min_succ, Finset.sum_range_succ', List.getD_cons_succ,
            List.getD_cons_zero, ih ys]
          ring

theorem zipWith_self_eq_map_sq (a : List ℝ) :
    List.zipWith (fun x y => x * y) a a = a.map (fun x => x * x) := by
  induction a with
  | nil => rfl
  | cons x xs ih => simp [ih]

theorem map_sq_sum_eq (a : List ℝ) :
    (a.map (fun x => x * x)).sum =
      ∑ i in Finset.range a.length, a.getD i 0 ^ 2 := by
  have h := zipWith_mul_sum_eq a a
  rw [zipWith_self_eq_map_sq, Nat.min_self] at h
  rw [h]
  refine Finset.sum_congr rfl fun i _ => ?_
  ring

theorem map_sq_sum_nonneg (a : List ℝ) : 0 ≤ (a.map (fun x => x * x)).sum := by
  rw [map_sq_sum_eq]
  exact Finset.sum_nonneg fun i _ => sq_nonneg _

theorem dot_comm (a : List ℝ) : ∀ b : List ℝ,
    (List.zipWith (fun x y => x * y) a b).sum =
      (List.zipWith (fun x y => x * y) b a).sum := by
  induction a with
  | nil => intro b; cases b <;> simp
  | cons x xs ih =>
      intro b
      cases b with
      | nil => simp
      | cons y ys => simp [ih ys]; ring

theorem abs_dot_le (a b : List ℝ) (hab : a.length = b.length) :
    |(List.zipWith (fun x y => x * y) a b).sum| ≤
      Real.sqrt ((a.map (fun x => x * x)).sum) *
        Real.sqrt ((b.map (fun x => x * x)).sum) := by
  rw [zipWith_mul_sum_eq, hab, Nat.min_self, map_sq_sum_eq, map_sq_sum_eq, hab]
  rw [abs_le]
  constructor
  · have h := Real.sum_mul_le_sqrt_mul_sqrt (Finset.range b.length)
      (fun i => -(a.getD i 0)) (fun i => b.getD i 0)
    simp only [neg_mul, Finset.sum_neg_distrib, neg_sq] at h
    linarith
  · exact Real.sum_mul_le_sqrt_mul_sqrt _ _ _

/-- C9: `cosineSimilarity` throws (returns no value) exactly on input
vectors of different lengths, and returns a value whenever the two
vectors have the same dimension. -/
theorem C9_cosineSimilarity_length_guard (a b : List ℝ) :
    cosineSimilarity a b = none ↔ a.length ≠ b.length := by
  rw [cosineSimilarity]
  constructor
  · intro hc
    by_contra hlen
    rw [if_neg (not_ne_iff.mpr hlen)] at hc
    revert hc
    dsimp only
    split <;> simp
  · intro hlen
    rw [if_pos hlen]

/-- Witness for C9 at concrete vectors of lengths 1 and 2. -/
theorem C9_cosineSimilarity_length_guard_witness :
    cosineSimilarity [(1 : ℝ)] [(1 : ℝ), 2] = none ↔
      ([(1 : ℝ)].length ≠ [(1 : ℝ), 2].length) :=
  C9_cosineSimilarity_length_guard [(1 : ℝ)] [(1 : ℝ), 2]

/-- C4: for vectors of equal dimension, `cosineSimilarity` returns a value
in `[-1, 1]`, is symmetric, evaluates to exactly 1 on `(a, a)` when `a`
has nonzero norm, and returns 0 whenever either vector has zero norm. -/
theorem C4_cosineSimilarity_properties (a b : List ℝ)
    (hab : a.length = b.length) :
    (∃ r, cosineSimilarity a b = some r ∧ -1 ≤ r ∧ r ≤ 1) ∧
    cosineSimilarity a b = cosineSimilarity b a ∧
    (Real.sqrt ((a.map (fun x => x * x)).sum) ≠ 0 →
      cosineSimilarity a a = some 1) ∧
    ((Real.sqrt ((a.map (fun x => x * x)).sum) = 0 ∨
      Real.sqrt ((b.map (fun x => x * x)).sum) = 0) →
      cosineSimilarity a b = some 0) := by
  refine ⟨?_, ?_, ?_, ?_⟩
  · -- range
    rw [cosineSimilarity, if_neg (by simp [hab])]
    dsimp only
    split_ifs with hz
    · exact ⟨0, rfl, by norm_num, by norm_num⟩
    · push_neg at hz
      have hA0 : 0 ≤ Real.sqrt ((a.map (fun x => x * x)).sum) :=
        Real.sqrt_nonneg _
      have hB0 : 0 ≤ Real.sqrt ((b.map (fun x => x * x)).sum) :=
        Real.sqrt_nonneg _
      have hApos := lt_of_le_of_ne hA0 (Ne.symm hz.1)
      have hBpos := lt_of_le_of_ne hB0 (Ne.symm hz.2)
      have hprod := mul_pos hApos hBpos
      have habs := abs_dot_le a b hab
      rw [abs_le] at habs
      refine ⟨_, rfl, ?_, ?_⟩
      · rw [le_div_iff₀ hprod]
        linarith [habs.1]
      · rw [div_le_one hprod]
        exact habs.2
  · -- symmetry
    rw [cosineSimilarity, cosineSimilarity, dot_comm]
    dsimp only
    rw [if_neg (show ¬(a.length ≠ b.length) by simp [hab]),
      if_neg (show ¬(b.length ≠ a.length) by simp [hab])]
    simp only [or_comm]
    split_ifs with h1
    · rfl
    · rw [mul_comm]
  · -- self-similarity is exactly 1
    intro hA
    have hsum : 0 ≤ (a.map (fun x => x * x)).sum := map_sq_sum_nonneg a
    have hss : (a.map (fun x => x * x)).sum ≠ 0 := by
      intro h0
      apply hA
      rw [h0, Real.sqrt_zero]
    rw [cosineSimilarity, if_neg (by simp)]
    dsimp only
    rw [if_neg (by simpa using hA)]
    rw [zipWith_self_eq_map_sq, Real.mul_self_sqrt hsum, div_self hss]
  · -- zero norm gives 0
    intro hz
    rw [cosineSimilarity, if_neg (by simp [hab])]
    dsimp only
    rw [if_pos hz]

/-- Witness for C4 at the concrete vectors `[1, 0]` and `[0, 1]`. -/
theorem C4_cosineSimilarity_properties_witness :
    (∃ r, cosineSimilarity [(1 : ℝ), 0] [0, 1] = some r ∧ -1 ≤ r ∧ r ≤ 1) ∧
    cosineSimilarity [(1 : ℝ), 0] [0, 1] = cosineSimilarity [0, 1] [(1 : ℝ), 0] ∧
    (Real.sqrt (([(1 : ℝ), 0].map (fun x => x * x)).sum) ≠ 0 →
      cosineSimilarity [(1 : ℝ), 0] [(1 : ℝ), 0] = some 1) ∧
    ((Real.sqrt (([(1 : ℝ), 0].map (fun x => x * x)).sum) = 0 ∨
      Real.sqrt (([(0 : ℝ), 1].map (fun x => x * x)).sum) = 0) →
      cosineSimilarity [(1 : ℝ), 0] [0, 1] = some 0) :=
  C4_cosineSimilarity_properties [(1 : ℝ), 0] [(0 : ℝ), 1] rfl

end Vec

/-! ## Answer generation confidence (claim C8) -/

namespace Gen

/-- C8 counterexample: the claim that the confidence returned by answer
generation always lies in `[0, 1]` is false. With a single retrieved
document of similarity score `-1` (cosine similarity may be negative),
`generateAnswer` returns confidence `min(-1 * 1.2, 1) = -1.2 < 0`: the
code caps the confidence at 1 but never clamps it from below. -/
theorem C8_confidence_counterexample :
    (generateAnswer "" [⟨"c1", "text", "title", -1⟩]).confidence < 0 := by
  simp only [generateAnswer, List.map_cons, List.map_nil, List.sum_cons,
    List.sum_nil, List.length_cons, List.length_nil]
  norm_num

/-- C8 (amended): the confidence returned by `generateAnswer` is always at
most 1, and lies in `[0, 1]` whenever every retrieved document's
similarity score is nonnegative. -/
theorem C8_confidence_bounds (llmAnswer : String) (docs : List ScoredDoc) :
    (generateAnswer llmAnswer docs).confidence ≤ 1 ∧
    ((∀ d ∈ docs, 0 ≤ d.score) → 0 ≤ (generateAnswer llmAnswer docs).confidence) := by
  constructor
  · simp only [generateAnswer]
    exact min_le_right _ _
  · intro hnn
    simp only [generateAnswer]
    have hsum : 0 ≤ (docs.map (fun d => d.score)).sum := by
      apply List.sum_nonneg
      intro x hx
      obtain ⟨d, hd, rfl⟩ := List.mem_map.mp hx
      exact hnn d hd
    have hden : (0 : ℚ) < (if docs.length = 0 then 1 else (docs.length : ℚ)) := by
      split_ifs with h
      · norm_num
      · exact_mod_cast Nat.pos_of_ne_zero h
    have havg : 0 ≤ (docs.map (fun d => d.score)).sum /
        (if docs.length = 0 then 1 else (docs.length : ℚ)) :=
      div_nonneg hsum (le_of_lt hden)
    exact le_min (by linarith) (by norm_num)

/-- Witness for C8 at a singleton document list with score 1/2. -/
theorem C8_confidence_bounds_witness :
    (generateAnswer "ok" [⟨"c1", "text", "title", 1/2⟩]).confidence ≤ 1 ∧
    0 ≤ (generateAnswer "ok" [⟨"c1", "text", "title", 1/2⟩]).confidence :=
  ⟨(C8_confidence_bounds "ok" [⟨"c1", "text", "title", 1/2⟩]).1,
   (C8_confidence_bounds "ok" [⟨"c1", "text", "title", 1/2⟩]).2
     (by intro d hd; simp at hd; rw [hd]; norm_num)⟩

end Gen

/-! ## Fallback heuristic evaluation (claim C6) -/

namespace SelfEval

set_option maxRecDepth 8000 in
/-- C6 counterexample: the claim's formula and the code disagree. With the
query `"alpha beta gamma delta epsilon"` (five keywords), an answer of
exactly 30 words containing three of them (keyword coverage exactly 60%),
no retrieved documents, and confidence 0: the claim's formula gives
`(0.5 + 0.1 + 0.15 - 0.2) * 0.7 = 0.385` (word count 30 lies in `[30,500]`,
coverage `≥ 60%`), while the code gives `(0.5 + 0 - 0.1 - 0.2) * 0.7 = 0.14`
(it rewards only `30 < count < 500`, penalizes nothing at exactly 30, and
requires coverage strictly above 60%). A second input with a 501-word
answer separates the upper boundary as well: the claim's formula subtracts
0.1 for any word count outside `[30, 500]`, giving `0.35 * 0.7 = 0.245`,
while the code leaves the score unchanged for counts of 500 and above,
again giving `0.14`. -/
theorem C6_heuristic_counterexample :
    (claimHeuristicScore
        (answerWordCount "alpha beta gamma w w w w w w w w w w w w w w w w w w w w w w w w w w w")
        (keywordCoverageOf "alpha beta gamma delta epsilon"
          "alpha beta gamma w w w w w w w w w w w w w w w w w w w w w w w w w w w")
        ([] : List ScoredDoc).length (avgRetrievalScore []) 0 ≠
      (heuristicEvaluation "alpha beta gamma delta epsilon"
        "alpha beta gamma w w w w w w w w w w w w w w w w w w w w w w w w w w w"
        [] 0).score) ∧
    (claimHeuristicScore
        (answerWordCount "alpha beta gamma w w w w w w w w w w w w w w w w w w w w w w w w w w w w w w w w w w w w w w w w w w w w w w w w w w w w w w w w w w w w w w w w w w w w w w w w w w w w w w w w w w w w w w w w w w w w w w w w w w w w w w w w w w w w w w w w w w w w w w w w w w w w w w w w w w w w w w w w w w w w w w w w w w w w w w w w w w w w w w w w w w w w w w w w w w w w w w w w w w w w w w w w w w w w w w w w w w w w w w w w w w w w w w w w w w w w w w w w w w w w w w w w w w w w w w w w w w w w w w w w w w w w w w w w w w w w w w w w w w w w w w w w w w w w w w w w w w w w w w w w w w w w w w w w w w w w w w w w w w w w w w w w w w w w w w w w w w w w w w w w w w w w w w w w w w w w w w w w w w w w w w w w w w w w w w w w w w w w w w w w w w w w w w w w w w w w w w w w w w w w w w w w w w w w w w w w w w w w w w w w w w w w w w w w w w w w w w w w w w w w w w w w w w w w w w w w w w w w w w w w w w w w w w w w w w w w w w w w w w w w w w w w w w w w w w w w w w w w w w w w w w w w w w w w w w w w w w w w w w")
        (keywordCoverageOf "alpha beta gamma delta epsilon"
          "alpha beta gamma w w w w w w w w w w w w w w w w w w w w w w w w w w w w w w w w w w w w w w w w w w w w w w w w w w w w w w w w w w w w w w w w w w w w w w w w w w w w w w w w w w w w w w w w w w w w w w w w w w w w w w w w w w w w w w w w w w w w w w w w w w w w w w w w w w w w w w w w w w w w w w w w w w w w w w w w w w w w w w w w w w w w w w w w w w w w w w w w w w w w w w w w w w w w w w w w w w w w w w w w w w w w w w w w w w w w w w w w w w w w w w w w w w w w w w w w w w w w w w w w w w w w w w w w w w w w w w w w w w w w w w w w w w w w w w w w w w w w w w w w w w w w w w w w w w w w w w w w w w w w w w w w w w w w w w w w w w w w w w w w w w w w w w w w w w w w w w w w w w w w w w w w w w w w w w w w w w w w w w w w w w w w w w w w w w w w w w w w w w w w w w w w w w w w w w w w w w w w w w w w w w w w w w w w w w w w w w w w w w w w w w w w w w w w w w w w w w w w w w w w w w w w w w w w w w w w w w w w w w w w w w w w w w w w w w w w w w w w w w w w w w w w w w w w w w w w w w w w w w")
        ([] : List ScoredDoc).length (avgRetrievalScore []) 0 ≠
      (heuristicEvaluation "alpha beta gamma delta epsilon"
        "alpha beta gamma w w w w w w w w w w w w w w w w w w w w w w w w w w w w w w w w w w w w w w w w w w w w w w w w w w w w w w w w w w w w w w w w w w w w w w w w w w w w w w w w w w w w w w w w w w w w w w w w w w w w w w w w w w w w w w w w w w w w w w w w w w w w w w w w w w w w w w w w w w w w w w w w w w w w w w w w w w w w w w w w w w w w w w w w w w w w w w w w w w w w w w w w w w w w w w w w w w w w w w w w w w w w w w w w w w w w w w w w w w w w w w w w w w w w w w w w w w w w w w w w w w w w w w w w w w w w w w w w w w w w w w w w w w w w w w w w w w w w w w w w w w w w w w w w w w w w w w w w w w w w w w w w w w w w w w w w w w w w w w w w w w w w w w w w w w w w w w w w w w w w w w w w w w w w w w w w w w w w w w w w w w w w w w w w w w w w w w w w w w w w w w w w w w w w w w w w w w w w w w w w w w w w w w w w w w w w w w w w w w w w w w w w w w w w w w w w w w w w w w w w w w w w w w w w w w w w w w w w w w w w w w w w w w w w w w w w w w w w w w w w w w w w w w w w w w w w w w w w w w"
        [] 0).score) := by
  have h2 : (queryKeywordList "alpha beta gamma delta epsilon").length = 5 := by
    decide
  constructor
  · have hwc : answerWordCount
        "alpha beta gamma w w w w w w w w w w w w w w w w w w w w w w w w w w w" = 30 := by
      decide
    have h1 : keywordsAddressedCount "alpha beta gamma delta epsilon"
        "alpha beta gamma w w w w w w w w w w w w w w w w w w w w w w w w w w w" = 3 := by
      decide
    have hcov : keywordCoverageOf "alpha beta gamma delta epsilon"
        "alpha beta gamma w w w w w w w w w w w w w w w w w w w w w w w w w w w" = 3 / 5 := by
      rw [keywordCoverageOf, h1, h2]
      norm_num
    simp only [heuristicEvaluation, claimHeuristicScore, hwc, hcov,
      List.length_nil]
    norm_num
  · have hwc : answerWordCount
        "alpha beta gamma w w w w w w w w w w w w w w w w w w w w w w w w w w w w w w w w w w w w w w w w w w w w w w w w w w w w w w w w w w w w w w w w w w w w w w w w w w w w w w w w w w w w w w w w w w w w w w w w w w w w w w w w w w w w w w w w w w w w w w w w w w w w w w w w w w w w w w w w w w w w w w w w w w w w w w w w w w w w w w w w w w w w w w w w w w w w w w w w w w w w w w w w w w w w w w w w w w w w w w w w w w w w w w w w w w w w w w w w w w w w w w w w w w w w w w w w w w w w w w w w w w w w w w w w w w w w w w w w w w w w w w w w w w w w w w w w w w w w w w w w w w w w w w w w w w w w w w w w w w w w w w w w w w w w w w w w w w w w w w w w w w w w w w w w w w w w w w w w w w w w w w w w w w w w w w w w w w w w w w w w w w w w w w w w w w w w w w w w w w w w w w w w w w w w w w w w w w w w w w w w w w w w w w w w w w w w w w w w w w w w w w w w w w w w w w w w w w w w w w w w w w w w w w w w w w w w w w w w w w w w w w w w w w w w w w w w w w w w w w w w w w w w w w w w w w w w w w w w w w" = 501 := by
      decide
    have h1 : keywordsAddressedCount "alpha beta gamma delta epsilon"
        "alpha beta gamma w w w w w w w w w w w w w w w w w w w w w w w w w w w w w w w w w w w w w w w w w w w w w w w w w w w w w w w w w w w w w w w w w w w w w w w w w w w w w w w w w w w w w w w w w w w w w w w w w w w w w w w w w w w w w w w w w w w w w w w w w w w w w w w w w w w w w w w w w w w w w w w w w w w w w w w w w w w w w w w w w w w w w w w w w w w w w w w w w w w w w w w w w w w w w w w w w w w w w w w w w w w w w w w w w w w w w w w w w w w w w w w w w w w w w w w w w w w w w w w w w w w w w w w w w w w w w w w w w w w w w w w w w w w w w w w w w w w w w w w w w w w w w w w w w w w w w w w w w w w w w w w w w w w w w w w w w w w w w w w w w w w w w w w w w w w w w w w w w w w w w w w w w w w w w w w w w w w w w w w w w w w w w w w w w w w w w w w w w w w w w w w w w w w w w w w w w w w w w w w w w w w w w w w w w w w w w w w w w w w w w w w w w w w w w w w w w w w w w w w w w w w w w w w w w w w w w w w w w w w w w w w w w w w w w w w w w w w w w w w w w w w w w w w w w w w w w w w w w w" = 3 := by
      decide
    have hcov : keywordCoverageOf "alpha beta gamma delta epsilon"
        "alpha beta gamma w w w w w w w w w w w w w w w w w w w w w w w w w w w w w w w w w w w w w w w w w w w w w w w w w w w w w w w w w w w w w w w w w w w w w w w w w w w w w w w w w w w w w w w w w w w w w w w w w w w w w w w w w w w w w w w w w w w w w w w w w w w w w w w w w w w w w w w w w w w w w w w w w w w w w w w w w w w w w w w w w w w w w w w w w w w w w w w w w w w w w w w w w w w w w w w w w w w w w w w w w w w w w w w w w w w w w w w w w w w w w w w w w w w w w w w w w w w w w w w w w w w w w w w w w w w w w w w w w w w w w w w w w w w w w w w w w w w w w w w w w w w w w w w w w w w w w w w w w w w w w w w w w w w w w w w w w w w w w w w w w w w w w w w w w w w w w w w w w w w w w w w w w w w w w w w w w w w w w w w w w w w w w w w w w w w w w w w w w w w w w w w w w w w w w w w w w w w w w w w w w w w w w w w w w w w w w w w w w w w w w w w w w w w w w w w w w w w w w w w w w w w w w w w w w w w w w w w w w w w w w w w w w w w w w w w w w w w w w w w w w w w w w w w w w w w w w w w w w w" = 3 / 5 := by
      rw [keywordCoverageOf, h1, h2]
      norm_num
    simp only [heuristicEvaluation, claimHeuristicScore, hwc, hcov,
      List.length_nil]
    norm_num

/-- C6 (amended): the fallback heuristic score equals the closed formula
`clamp₀₁((0.5 + lengthAdj + keywordAdj + retrievalAdj) × 0.7 + confidence × 0.3)`
where the word-count adjustment is `+0.1` only for `30 < count < 500` and
`-0.1` only for `count < 30` (no change at 30 or at ≥ 500), the keyword
adjustment is `+0.15` only for coverage strictly above 60% and `-0.1`
otherwise, and the retrieval adjustment is as claimed; moreover the score
always lies in `[0, 1]`. -/
theorem C6_heuristic_formula (query generatedAnswer : String)
    (docs : List ScoredDoc) (confidence : ℚ) :
    (heuristicEvaluation query generatedAnswer docs confidence).score =
      heuristicScoreFormula (answerWordCount generatedAnswer)
        (keywordCoverageOf query generatedAnswer) docs.length
        (avgRetrievalScore docs) confidence ∧
    0 ≤ (heuristicEvaluation query generatedAnswer docs confidence).score ∧
    (heuristicEvaluation query generatedAnswer docs confidence).score ≤ 1 := by
  refine ⟨?_, ?_, ?_⟩
  · simp only [heuristicEvaluation, heuristicScoreFormula, lengthAdjustment,
      keywordAdjustment, retrievalAdjustment]
    split_ifs <;>
      exact congrArg (fun x => max 0 (min 1 x)) (by ring)
  · simp only [heuristicEvaluation]
    exact le_max_left 0 _
  · simp only [heuristicEvaluation]
    exact max_le (by norm_num) (min_le_left 1 _)

/-- Witness for C6 at a concrete query, answer and confidence. -/
theorem C6_heuristic_formula_witness :
    (heuristicEvaluation "what is gravity" "a short answer" [] (1/2)).score =
      heuristicScoreFormula (answerWordCount "a short answer")
        (keywordCoverageOf "what is gravity" "a short answer")
        ([] : List ScoredDoc).length (avgRetrievalScore []) (1/2) ∧
    0 ≤ (heuristicEvaluation "what is gravity" "a short answer" [] (1/2)).score ∧
    (heuristicEvaluation "what is gravity" "a short answer" [] (1/2)).score ≤ 1 :=
  C6_heuristic_formula "what is gravity" "a short answer" [] (1/2)

end SelfEval

/-! ## Query refinement persistence (claim C7) -/

namespace Refine

/-- The update of a matching record (usage count and timestamp only) still
matches the same key. -/
theorem refinementMatches_update (orig refined mode : String)
    (subject : Option String) (r : RefinementRecord) (now : Nat) :
    refinementMatches orig refined mode subject
      { r with usageCount := r.usageCount + 1, lastUsed := now } =
    refinementMatches orig refined mode subject r := rfl

/-- `storeRefinementAttempt` increases the total usage count of its key by
exactly one: it either increments the first matching record or inserts a
fresh record with usage count 1. -/
theorem storeRefinementAttempt_usage (now : Nat) (orig refined mode : String)
    (subject : Option String) (store : List RefinementRecord) :
    usageFor (storeRefinementAttempt now orig refined mode subject store)
        orig refined mode subject =
      usageFor store orig refined mode subject + 1 := by
  induction store with
  | nil =>
      simp only [storeRefinementAttempt, usageFor, List.filter]
      have hm : refinementMatches orig refined mode subject
          ⟨orig, refined, mode, subject, none, 1, now⟩ = true := by
        simp only [refinementMatches]
        cases subject <;> simp
      simp [hm]
  | cons r rs ih =>
      by_cases h : refinementMatches orig refined mode subject r
      · simp only [storeRefinementAttempt, if_pos h, usageFor, List.filter,
          refinementMatches_update, h, List.map_cons, List.sum_cons]
        omega
      · simp only [storeRefinementAttempt, if_neg h, usageFor, List.filter,
          h, Bool.false_eq_true]
        simp only [usageFor] at ih
        omega

/-- C7 counterexample: the claim that every refine call with attempt
number at least 1 persists a RefinementRecord — whether the LLM rewrite
succeeds or fails, inserting or incrementing on an *exact* key match — is
false on both counts. First, when the LLM call throws, the catch returns
the original query and stores nothing (the store stays empty). Second,
matching is case-insensitive on the query texts: with a stored record for
original query `"Q"`, a refine call for `"q"` (no exact match exists)
increments the usage count of the `"Q"` record instead of inserting a new
one, leaving a single record. Third, when the refine call carries no
subject, the `subject` filter is dropped entirely (Prisma treats an
`undefined` filter as absent), so a record stored under subject `"math"`
is incremented instead of a new subject-less record being inserted. -/
theorem C7_refinement_counterexample :
    (refineQuery [] 0 (.error "LLM failure") "q" "research" none 1 = ("q", []) ∧
      usageFor (refineQuery [] 0 (.error "LLM failure") "q" "research" none 1).2
        "q" "q" "research" none = 0) ∧
    (refineQuery [⟨"Q", "R", "research", none, none, 5, 0⟩] 7 (.ok "R")
        "q" "research" none 1).2 =
      [⟨"Q", "R", "research", none, none, 6, 7⟩] ∧
    (refineQuery [⟨"q", "R", "research", some "math", none, 2, 0⟩] 9 (.ok "R")
        "q" "research" none 1).2 =
      [⟨"q", "R", "research", some "math", none, 3, 9⟩] := by
  refine ⟨⟨?_, ?_⟩, ?_, ?_⟩ <;> decide

/-- C7 (amended): for every refine call with attempt number at least 1,
the behaviour depends on the LLM rewrite call. If it throws, the original
query is returned and nothing is persisted. If it succeeds, the trimmed
rewrite is returned, and exactly one usage is added for the key
(original, refined, mode, subject) — by incrementing the first record
matching case-insensitively on the query texts (exactly on mode, and on
subject only when one is provided), or by inserting a fresh record with
usage count 1. -/
theorem C7_refinement_persistence (store : List RefinementRecord) (now : Nat)
    (llm : Except String String) (orig mode : String) (subject : Option String)
    (n : Nat) (hn : 1 ≤ n) :
    (∀ e, llm = .error e →
      refineQuery store now llm orig mode subject n = (orig, store)) ∧
    (∀ out, llm = .ok out →
      (refineQuery store now llm orig mode subject n).1 = jsTrim out ∧
      usageFor (refineQuery store now llm orig mode subject n).2
          orig (jsTrim out) mode subject =
        usageFor store orig (jsTrim out) mode subject + 1) := by
  have hn0 : n ≠ 0 := by omega
  constructor
  · intro e he
    rw [refineQuery.eq_def, if_neg hn0, he]
  · intro out hout
    rw [refineQuery.eq_def, if_neg hn0, hout]
    exact ⟨rfl, storeRefinementAttempt_usage now orig (jsTrim out) mode subject store⟩

/-- Witness for C7: a successful rewrite on an empty store at attempt 1. -/
theorem C7_refinement_persistence_witness :
    (refineQuery [] 0 (.ok "R") "q" "research" none 1).1 = jsTrim "R" ∧
    usageFor (refineQuery [] 0 (.ok "R") "q" "research" none 1).2
        "q" (jsTrim "R") "research" none =
      usageFor [] "q" (jsTrim "R") "research" none + 1 :=
  (C7_refinement_persistence [] 0 (.ok "R") "q" "research" none 1
    (by decide)).2 "R" rfl

end Refine

/-! ## Chunker (claim C5) -/

namespace Chunk

/-- The current chunk only ever grows at its right end, so the first chunk
emitted by the loop extends the current accumulator. -/
theorem chunkLoop_head_content (ss : List (List Char)) (size : Nat) :
    ∀ (pending : List (List Char)) (i : Nat) (cc : List Char) (idx : Nat)
      (c : ChunkRec), (chunkLoop ss size pending i cc idx).head? = some c →
      ∃ t, c.content = cc ++ t := by
  intro pending
  induction pending with
  | nil =>
      intro i cc idx c h
      rw [chunkLoop] at h
      split_ifs at h with h1
      · simp at h
      · simp only [List.head?_cons, Option.some.injEq] at h
        exact ⟨[], by rw [← h]; simp⟩
  | cons s rest ih =>
      intro i cc idx c h
      simp only [chunkLoop] at h
      split_ifs at h with h1 h2 h3
      · obtain ⟨t, ht⟩ := ih _ _ _ _ h
        exact ⟨trimChars s ++ t, by simp [h2, ht]⟩
      · obtain ⟨t, ht⟩ := ih _ _ _ _ h
        exact ⟨' ' :: trimChars s ++ t, by simp [ht]⟩
      · obtain ⟨t, ht⟩ := ih _ _ _ _ h
        exact ⟨joinSpace (jsSlice ss (i - 2) i) ++ ' ' :: trimChars s ++ t,
          by simp [h3, ht]⟩
      · simp only [List.head?_cons, Option.some.injEq] at h
        exact ⟨[], by rw [← h]; simp⟩

/-- Every chunk after the first begins with the overlap seed built at the
sentence index where the previous chunk was closed (recorded in its
`sentenceEnd` metadata). -/
theorem chunkLoop_chain (ss : List (List Char)) (size : Nat) :
    ∀ (pending : List (List Char)) (i : Nat) (cc : List Char) (idx : Nat),
      pending = ss.drop i →
      List.Chain' (fun c d => ∃ t, d.content = seedAt ss c.sentenceEnd ++ t)
        (chunkLoop ss size pending i cc idx) := by
  intro pending
  induction pending with
  | nil =>
      intro i cc idx _hp
      rw [chunkLoop]
      split_ifs
      · exact List.chain'_nil
      · exact List.chain'_singleton _
  | cons s rest ih =>
      intro i cc idx hp
      have hlen : i < ss.length := by
        by_contra hge
        push_neg at hge
        rw [List.drop_eq_nil_of_le hge] at hp
        exact List.cons_ne_nil s rest hp
      have hcons := List.drop_eq_getElem_cons hlen
      rw [← hp] at hcons
      injection hcons with hs hrest
      have hgetD : ss.getD i [] = s := by
        rw [List.getD_eq_getElem ss [] hlen, hs]
      simp only [chunkLoop]
      split_ifs with h1 h2 h3
      · exact ih _ _ _ hrest
      · exact ih _ _ _ hrest
      · exact ih _ _ _ hrest
      · refine List.chain'_cons'.mpr ⟨?_, ih _ _ _ hrest⟩
        intro d hd
        obtain ⟨t, ht⟩ := chunkLoop_head_content ss size _ _ _ _ d hd
        refine ⟨t, ?_⟩
        rw [ht]
        simp only [seedAt, hgetD, List.append_assoc]

/-- Every chunk emitted by the loop either fits the size bound or is
exactly an overflow seed (up to two untrimmed preceding sentences joined
with spaces, a space, and one trimmed sentence). -/
theorem chunkLoop_content_bound (ss : List (List Char)) (size : Nat) :
    ∀ (pending : List (List Char)) (i : Nat) (cc : List Char) (idx : Nat),
      pending = ss.drop i →
      (cc = [] ∨ cc.length ≤ size ∨ ∃ j, j < ss.length ∧ cc = seedAt ss j) →
      ∀ c ∈ chunkLoop ss size pending i cc idx,
        c.content.length ≤ size ∨ ∃ j, j < ss.length ∧ c.content = seedAt ss j := by
  intro pending
  induction pending with
  | nil =>
      intro i cc idx _hp hinv c hc
      rw [chunkLoop] at hc
      split_ifs at hc with h1
      · simp at hc
      · simp only [List.mem_singleton] at hc
        subst hc
        rcases hinv with h | h | h

        · exact absurd h h1
        · exact Or.inl h
        · exact Or.inr h
  | cons s rest ih =>
      intro i cc idx hp hinv c hc
      have hlen : i < ss.length := by
        by_contra hge
        push_neg at hge
        rw [List.drop_eq_nil_of_le hge] at hp
        exact List.cons_ne_nil s rest hp
      have hcons := List.drop_eq_getElem_cons hlen
      rw [← hp] at hcons
      injection hcons with hs hrest
      have hgetD : ss.getD i [] = s := by
        rw [List.getD_eq_getElem ss [] hlen, hs]
      have hseed : joinSpace (jsSlice ss (i - 2) i) ++ ' ' :: trimChars s =
          seedAt ss i := by
        simp only [seedAt, hgetD]
      simp only [chunkLoop] at hc
      split_ifs at hc with h1 h2 h3
      · refine ih _ _ _ hrest (Or.inr (Or.inl ?_)) c hc
        subst h2
        simp only [List.nil_append, List.length_cons] at h1
        omega
      · exact ih _ _ _ hrest (Or.inr (Or.inl (le_of_eq_of_le rfl h1))) c hc
      · exact ih _ _ _ hrest (Or.inr (Or.inr ⟨i, hlen, hseed⟩)) c hc
      · rcases List.mem_cons.mp hc with hc | hc
        · subst hc
          rcases hinv with h | h | h
          · exact absurd h h3
          · exact Or.inl h
          · exact Or.inr h
        · exact ih _ _ _ hrest (Or.inr (Or.inr ⟨i, hlen, hseed⟩)) c hc

/-- C5 counterexample: for the text `"aaaa. bbbb. cccc."` with size bound
12 and configured overlap 200, the chunker emits the chunks
`"aaaa. bbbb."` and `"aaaa.  bbbb. cccc."`. The second chunk is 18 > 12
characters long yet consists of three sentences, each of trimmed length at
most 6 — it is not a single oversized sentence — and the first chunk is
not reproduced at the start of the second (the overlap seed joins the
*untrimmed* sentences, introducing a double space), so consecutive chunks
do not share the configured overlap either. -/
theorem C5_chunker_counterexample :
    (chunkDocument "aaaa. bbbb. cccc.".data ⟨12, 200, []⟩).map
        (fun c => c.content) =
      ["aaaa. bbbb.".data, "aaaa.  bbbb. cccc.".data] ∧
    ¬ chunkClaimHolds "aaaa. bbbb. cccc.".data ⟨12, 200, []⟩ := by
  constructor
  · decide
  · unfold chunkClaimHolds sharesConfiguredOverlap
    decide

/-- C5 (amended): for every input text, size bound, overlap parameter and
title: (1) the configured `chunkOverlap` parameter is ignored — it never
influences the output; (2) every emitted chunk either fits the size bound
or is exactly an overflow seed, i.e. the up-to-two untrimmed sentences
preceding the overflow position joined with spaces, followed by a space
and one trimmed sentence (so a sentence is never split mid-sentence); and
(3) consecutive chunks overlap in the sense that each chunk after the
first begins with the overflow seed built at the previous chunk's final
sentence index — not by sharing `chunkOverlap` characters. -/
theorem C5_chunker_properties (text : List Char) (size o₁ o₂ : Nat)
    (title₁ title₂ : List Char) :
    chunkDocument text ⟨size, o₁, title₁⟩ = chunkDocument text ⟨size, o₂, title₂⟩ ∧
    (∀ c ∈ chunkDocument text ⟨size, o₁, title₁⟩,
      c.content.length ≤ size ∨
        ∃ j, j < (splitSentences text).length ∧
          c.content = seedAt (splitSentences text) j) ∧
    List.Chain' (fun c d =>
        ∃ t, d.content = seedAt (splitSentences text) c.sentenceEnd ++ t)
      (chunkDocument text ⟨size, o₁, title₁⟩) := by
  refine ⟨rfl, ?_, ?_⟩
  · intro c hc
    exact chunkLoop_content_bound (splitSentences text) size
      (splitSentences text) 0 [] 0 (by simp) (Or.inl rfl) c hc
  · exact chunkLoop_chain (splitSentences text) size
      (splitSentences text) 0 [] 0 (by simp)

/-- Witness for C5 at the text `"ab. cd."` with size bound 3. -/
theorem C5_chunker_properties_witness :
    chunkDocument "ab. cd.".data ⟨3, 50, "t1".data⟩ =
      chunkDocument "ab. cd.".data ⟨3, 99, "t2".data⟩ ∧
    (∀ c ∈ chunkDocument "ab. cd.".data ⟨3, 50, "t1".data⟩,
      c.content.length ≤ 3 ∨
        ∃ j, j < (splitSentences "ab. cd.".data).length ∧
          c.content = seedAt (splitSentences "ab. cd.".data) j) ∧
    List.Chain' (fun c d =>
        ∃ t, d.content = seedAt (splitSentences "ab. cd.".data) c.sentenceEnd ++ t)
      (chunkDocument "ab. cd.".data ⟨3, 50, "t1".data⟩) :=
  C5_chunker_properties "ab. cd.".data 3 50 99 "t1".data "t2".data

end Chunk

/-! ## Workflow orchestrator (claims C1, C2, C3) -/

namespace Flow

theorem runCycle_refinementAttempts (o : CycleOracle) (s : RAGState) :
    (runCycle o s).refinementAttempts = s.refinementAttempts + 1 := rfl

theorem runFrom_eq (os : Nat → CycleOracle) (n : Nat) (s : RAGState) :
    runFrom os n s =
      (if shouldRefine (runCycle (os n) s) then runFrom os (n + 1) (runCycle (os n) s)
       else runCycle (os n) s) := by
  rw [runFrom]

/-- If the loop re-enters, the post-cycle attempt count is below 3. -/
theorem shouldRefine_attempts_lt (s : RAGState)
    (h : shouldRefine s = true) : s.refinementAttempts < 3 := by
  simp only [shouldRefine, Bool.and_eq_true, decide_eq_true_eq] at h
  exact h.2

/-- The loop always stops in a state where `shouldRefine` chose `"end"`. -/
theorem runFrom_shouldRefine_false (os : Nat → CycleOracle) (n : Nat)
    (s : RAGState) : shouldRefine (runFrom os n s) = false := by
  generalize hk : 3 - s.refinementAttempts = k
  induction k using Nat.strong_induction_on generalizing n s with
  | _ k ih =>
      rw [runFrom_eq]
      by_cases h : shouldRefine (runCycle (os n) s) = true
      · rw [if_pos h]
        have hlt := shouldRefine_attempts_lt _ h
        rw [runCycle_refinementAttempts] at hlt
        exact ih (3 - (runCycle (os n) s).refinementAttempts)
          (by rw [runCycle_refinementAttempts]; omega) _ _ rfl
      · rw [if_neg h]
        exact Bool.not_eq_true _ ▸ h

/-- The final attempt count never exceeds `max (initial + 1) 3`. -/
theorem runFrom_attempts_le (os : Nat → CycleOracle) (n : Nat) (s : RAGState) :
    (runFrom os n s).refinementAttempts ≤ max (s.refinementAttempts + 1) 3 := by
  generalize hk : 3 - s.refinementAttempts = k
  induction k using Nat.strong_induction_on generalizing n s with
  | _ k ih =>
      rw [runFrom_eq]
      by_cases h : shouldRefine (runCycle (os n) s) = true
      · rw [if_pos h]
        have hlt := shouldRefine_attempts_lt _ h
        rw [runCycle_refinementAttempts] at hlt
        have hrec := ih (3 - (runCycle (os n) s).refinementAttempts)
          (by rw [runCycle_refinementAttempts]; omega) (n + 1) (runCycle (os n) s) rfl
        rw [runCycle_refinementAttempts] at hrec
        have h1 : max (s.refinementAttempts + 1 + 1) 3 = 3 :=
          Nat.max_eq_right (by omega)
        have h2 : s.refinementAttempts + 1 ≤ 3 := by omega
        rw [h1] at hrec
        exact le_trans hrec (le_max_right _ _)
      · rw [if_neg h, runCycle_refinementAttempts]
        exact le_max_left _ _

/-- C1 counterexample: the claimed transition rule is violated. With a
retrieval that returns zero documents and a generation whose trimmed
answer is empty (as `generateAnswer` produces for a whitespace-only LLM
output), the evaluation node takes its falsy-answer short-circuit: it
records score 0 and requests refinement unconditionally. After this
Evaluate step the workflow transitions back to Refine even though zero
documents were retrieved, so "Refine iff score < 0.7 AND attempts < 3 AND
at least one document" is false (the right side requires a document). -/
theorem C1_evaluate_transition_counterexample :
    (runCycle
        ⟨.ok "r1", .ok [], .ok ⟨(Gen.generateAnswer " " []).answer, 0, [], 0⟩, 0, "f1"⟩
        (createInitialState "q1" "u1" .teacher "research" "c1" none none)).retrievedDocuments
        = [] ∧
    (runCycle
        ⟨.ok "r1", .ok [], .ok ⟨(Gen.generateAnswer " " []).answer, 0, [], 0⟩, 0, "f1"⟩
        (createInitialState "q1" "u1" .teacher "research" "c1" none none)).evaluationScore
        = some 0 ∧
    ¬ (shouldRefine (runCycle
          ⟨.ok "r1", .ok [], .ok ⟨(Gen.generateAnswer " " []).answer, 0, [], 0⟩, 0, "f1"⟩
          (createInitialState "q1" "u1" .teacher "research" "c1" none none)) = true ↔
        ((runCycle
            ⟨.ok "r1", .ok [], .ok ⟨(Gen.generateAnswer " " []).answer, 0, [], 0⟩, 0, "f1"⟩
            (createInitialState "q1" "u1" .teacher "research" "c1" none none)).evaluationScore.getD 0 < 0.7 ∧
          (runCycle
            ⟨.ok "r1", .ok [], .ok ⟨(Gen.generateAnswer " " []).answer, 0, [], 0⟩, 0, "f1"⟩
            (createInitialState "q1" "u1" .teacher "research" "c1" none none)).refinementAttempts < 3 ∧
          0 < (runCycle
            ⟨.ok "r1", .ok [], .ok ⟨(Gen.generateAnswer " " []).answer, 0, [], 0⟩, 0, "f1"⟩
            (createInitialState "q1" "u1" .teacher "research" "c1" none none)).retrievedDocuments.length)) := by
  refine ⟨by decide, by decide, ?_⟩
  intro hiff
  have h1 : shouldRefine (runCycle
      ⟨.ok "r1", .ok [], .ok ⟨(Gen.generateAnswer " " []).answer, 0, [], 0⟩, 0, "f1"⟩
      (createInitialState "q1" "u1" .teacher "research" "c1" none none)) = true := by
    decide
  exact absurd (hiff.mp h1).2.2 (by decide)

/-- C1 (amended): after every Evaluate step (that is, for the state
produced by one full cycle), the workflow transitions back to Refine iff
the attempt counter is below 3 and either the generated answer is falsy
(empty) — in which case the node records score 0 and requests refinement
regardless of the document count — or the recorded evaluation score is
below 0.7 and at least one document was retrieved. In every other case it
transitions to Done. -/
theorem C1_evaluate_transition (o : CycleOracle) (s : RAGState) :
    ∃ sc, (runCycle o s).evaluationScore = some sc ∧
      (shouldRefine (runCycle o s) = true ↔
        ((runCycle o s).refinementAttempts < 3 ∧
          (jsTruthyStr (runCycle o s).generatedAnswer = false ∨
            (sc < 0.7 ∧ (runCycle o s).retrievedDocuments ≠ [])))) := by
  by_cases htr : jsTruthyStr (answerGenerationNode o
      (documentRetrievalNode o (queryRefinementNode o s))).generatedAnswer = true
  · refine ⟨o.evalScore, ?_, ?_⟩
    · simp only [runCycle, selfEvaluationNode, htr, if_true]
    · have hfd : (jsTruthyStr (runCycle o s).generatedAnswer = false) ↔ False := by
        simp only [runCycle, selfEvaluationNode]
        simp [htr]
      rw [hfd]
      simp only [false_or]
      simp only [runCycle, selfEvaluationNode, shouldRefine, htr, if_true,
        Bool.and_eq_true, decide_eq_true_eq]
      constructor
      · rintro ⟨⟨⟨h1, _h2⟩, h3⟩, h4⟩
        exact ⟨h4, h1, List.length_pos.mp h3⟩
      · rintro ⟨h4, h1, h2⟩
        exact ⟨⟨⟨h1, h4⟩, List.length_pos.mpr h2⟩, h4⟩
  · rw [Bool.not_eq_true] at htr
    refine ⟨0, ?_, ?_⟩
    · simp only [runCycle, selfEvaluationNode, htr, Bool.false_eq_true, if_false]
    · have hfd : (jsTruthyStr (runCycle o s).generatedAnswer = false) ↔ True := by
        simp only [runCycle, selfEvaluationNode]
        simp [htr]
      rw [hfd]
      simp only [true_or, and_true]
      simp only [runCycle, selfEvaluationNode, shouldRefine, htr,
        Bool.false_eq_true, if_false, Bool.true_and, decide_eq_true_eq]

/-- Witness for C1 at a concrete cycle with a nonempty answer, one
retrieved document and evaluation score 1/5. -/
theorem C1_evaluate_transition_witness :
    ∃ sc, (runCycle
        ⟨.ok "wr1", .ok [⟨"dw", "ct", "tt", 3/4⟩], .ok ⟨"fine", 1/4, [], 2⟩, 1/5, "fw1"⟩
        (createInitialState "qx" "ux" .student "research" "cx" none none)).evaluationScore
        = some sc ∧
      (shouldRefine (runCycle
          ⟨.ok "wr1", .ok [⟨"dw", "ct", "tt", 3/4⟩], .ok ⟨"fine", 1/4, [], 2⟩, 1/5, "fw1"⟩
          (createInitialState "qx" "ux" .student "research" "cx" none none)) = true ↔
        ((runCycle
            ⟨.ok "wr1", .ok [⟨"dw", "ct", "tt", 3/4⟩], .ok ⟨"fine", 1/4, [], 2⟩, 1/5, "fw1"⟩
            (createInitialState "qx" "ux" .student "research" "cx" none none)).refinementAttempts < 3 ∧
          (jsTruthyStr (runCycle
              ⟨.ok "wr1", .ok [⟨"dw", "ct", "tt", 3/4⟩], .ok ⟨"fine", 1/4, [], 2⟩, 1/5, "fw1"⟩
              (createInitialState "qx" "ux" .student "research" "cx" none none)).generatedAnswer = false ∨
            (sc < 0.7 ∧ (runCycle
              ⟨.ok "wr1", .ok [⟨"dw", "ct", "tt", 3/4⟩], .ok ⟨"fine", 1/4, [], 2⟩, 1/5, "fw1"⟩
              (createInitialState "qx" "ux" .student "research" "cx" none none)).retrievedDocuments ≠ [])))) :=
  C1_evaluate_transition
    ⟨.ok "wr1", .ok [⟨"dw", "ct", "tt", 3/4⟩], .ok ⟨"fine", 1/4, [], 2⟩, 1/5, "fw1"⟩
    (createInitialState "qx" "ux" .student "research" "cx" none none)

/-- C2 counterexample: the claimed exit condition "the loop exits once
zero documents were retrieved" fails. With zero retrieved documents but an
empty generated answer, the evaluation node unconditionally requests
refinement (recording score 0), and the loop re-enters Refine. -/
theorem C2_loop_exit_counterexample :
    (runCycle
        ⟨.ok "r2", .error "no store", .ok ⟨"", 1/2, [], 7⟩, 0.9, "f2"⟩
        (createInitialState "q2" "u2" .student "math_solver" "c2" (some "math") (some 9))).retrievedDocuments
        = [] ∧
    shouldRefine (runCycle
        ⟨.ok "r2", .error "no store", .ok ⟨"", 1/2, [], 7⟩, 0.9, "f2"⟩
        (createInitialState "q2" "u2" .student "math_solver" "c2" (some "math") (some 9)))
        = true := by
  constructor <;> decide

/-- C2 (amended): (1) the refinement attempt counter never decreases at
any node (the refinement node increments it, the other three preserve
it); (2) every workflow run from the initial state terminates — `runFrom`
is total by the attempt measure — in a state whose attempt count is at
most 3 and in which `shouldRefine` chose `"end"`; and (3) the loop exits
once the recorded evaluation score is at least 0.7, or the attempt cap 3
is reached, or zero documents were retrieved *and the generated answer is
truthy* (an empty generated answer forces refinement until the cap). -/
theorem C2_refinement_loop_bounds :
    (∀ (o : CycleOracle) (s : RAGState),
      s.refinementAttempts ≤ (queryRefinementNode o s).refinementAttempts ∧
      (documentRetrievalNode o s).refinementAttempts = s.refinementAttempts ∧
      (answerGenerationNode o s).refinementAttempts = s.refinementAttempts ∧
      (selfEvaluationNode o s).refinementAttempts = s.refinementAttempts) ∧
    (∀ (os : Nat → CycleOracle) (query userId : String) (role : Role)
      (mode conversationId : String) (subject : Option String) (grade : Option Nat),
      (runFrom os 0 (createInitialState query userId role mode conversationId
        subject grade)).refinementAttempts ≤ 3 ∧
      shouldRefine (runFrom os 0 (createInitialState query userId role mode
        conversationId subject grade)) = false) ∧
    (∀ (o : CycleOracle) (s : RAGState) (sc : ℚ),
      (runCycle o s).evaluationScore = some sc →
      (0.7 ≤ sc ∨ 3 ≤ (runCycle o s).refinementAttempts ∨
        ((runCycle o s).retrievedDocuments = [] ∧
          jsTruthyStr (runCycle o s).generatedAnswer = true)) →
      shouldRefine (runCycle o s) = false) := by
  refine ⟨?_, ?_, ?_⟩
  · intro o s
    exact ⟨Nat.le_succ _, rfl, rfl, rfl⟩
  · intro os query userId role mode conversationId subject grade
    constructor
    · have h := runFrom_attempts_le os 0
        (createInitialState query userId role mode conversationId subject grade)
      simpa [createInitialState] using h
    · exact runFrom_shouldRefine_false os 0 _
  · intro o s sc hsc hdisj
    by_cases htr : jsTruthyStr (answerGenerationNode o
        (documentRetrievalNode o (queryRefinementNode o s))).generatedAnswer = true
    · simp only [runCycle, selfEvaluationNode, htr, if_true,
        Option.some.injEq] at hsc
      simp only [runCycle, selfEvaluationNode, shouldRefine, htr, if_true] at hdisj ⊢
      rcases hdisj with h | h | h
      · rw [decide_eq_false (not_lt.mpr (hsc ▸ h))]
        simp
      · rw [decide_eq_false (not_lt.mpr h)]
        simp
      · rw [h.1]
        simp
    · rw [Bool.not_eq_true] at htr
      simp only [runCycle, selfEvaluationNode, htr, Bool.false_eq_true, if_false,
        Option.some.injEq] at hsc
      simp only [runCycle, selfEvaluationNode, shouldRefine, htr,
        Bool.false_eq_true, if_false] at hdisj ⊢
      rcases hdisj with h | h | h
      · rw [← hsc] at h
        norm_num at h
      · rw [decide_eq_false (not_lt.mpr h)]
        simp
      · exact h.2.elim

/-- Witness for C2: the exit-condition conjunct at a cycle whose oracle
evaluation score is 0.9 with one retrieved document and nonempty answer. -/
theorem C2_refinement_loop_bounds_witness :
    shouldRefine (runCycle
        ⟨.ok "rw", .ok [⟨"d1", "txt", "ttl", 1/2⟩], .ok ⟨"ans", 1/2, [], 3⟩, 0.9, "fw"⟩
        (createInitialState "qw" "uw" .teacher "research" "cw" none none)) = false :=
  C2_refinement_loop_bounds.2.2
    ⟨.ok "rw", .ok [⟨"d1", "txt", "ttl", 1/2⟩], .ok ⟨"ans", 1/2, [], 3⟩, 0.9, "fw"⟩
    (createInitialState "qw" "uw" .teacher "research" "cw" none none)
    (0.9 : ℚ) rfl (Or.inl (by norm_num))

/-- C3: `executeRAGWorkflow` is a total function into plain result
records — no exception escapes the workflow boundary (every node catches
its own errors, `logAnalytics` swallows analytics failures, and the
orchestrator's catch-all turns any thrown error into a record). When the
invocation throws, it returns `success = false` with the fixed apology
answer instead of rethrowing; when it resolves, it returns the workflow
state's record with `success` exactly when the state carries no truthy
error. -/
theorem C3_workflow_never_throws (os : Nat → CycleOracle) (m query userId : String)
    (role : Role) (mode conversationId : String) (subject : Option String)
    (grade : Option Nat) :
    (executeRAGWorkflow os (some m) query userId role mode conversationId
        subject grade).success = false ∧
    (executeRAGWorkflow os (some m) query userId role mode conversationId
        subject grade).answer = some workflowApology ∧
    (executeRAGWorkflow os (some m) query userId role mode conversationId
        subject grade).error = some m ∧
    (executeRAGWorkflow os none query userId role mode conversationId
        subject grade).success =
      !(jsTruthyStr (runFrom os 0 (createInitialState query userId role mode
        conversationId subject grade)).error) ∧
    (executeRAGWorkflow os none query userId role mode conversationId
        subject grade).answer =
      (runFrom os 0 (createInitialState query userId role mode conversationId
        subject grade)).generatedAnswer :=
  ⟨rfl, rfl, rfl, rfl, rfl⟩

/-- Witness for C3 at a constant oracle stream and the fault `"boom"`. -/
theorem C3_workflow_never_throws_witness :
    (executeRAGWorkflow (fun _ => ⟨.ok "a", .ok [], .ok ⟨"b", 0, [], 0⟩, 0, "c"⟩)
        (some "boom") "qq" "uu" .teacher "research" "cc" none none).success = false ∧
    (executeRAGWorkflow (fun _ => ⟨.ok "a", .ok [], .ok ⟨"b", 0, [], 0⟩, 0, "c"⟩)
        (some "boom") "qq" "uu" .teacher "research" "cc" none none).answer
        = some workflowApology ∧
    (executeRAGWorkflow (fun _ => ⟨.ok "a", .ok [], .ok ⟨"b", 0, [], 0⟩, 0, "c"⟩)
        (some "boom") "qq" "uu" .teacher "research" "cc" none none).error = some "boom" ∧
    (executeRAGWorkflow (fun _ => ⟨.ok "a", .ok [], .ok ⟨"b", 0, [], 0⟩, 0, "c"⟩)
        none "qq" "uu" .teacher "research" "cc" none none).success =
      !(jsTruthyStr (runFrom (fun _ => ⟨.ok "a", .ok [], .ok ⟨"b", 0, [], 0⟩, 0, "c"⟩) 0
        (createInitialState "qq" "uu" .teacher "research" "cc" none none)).error) ∧
    (executeRAGWorkflow (fun _ => ⟨.ok "a", .ok [], .ok ⟨"b", 0, [], 0⟩, 0, "c"⟩)
        none "qq" "uu" .teacher "research" "cc" none none).answer =
      (runFrom (fun _ => ⟨.ok "a", .ok [], .ok ⟨"b", 0, [], 0⟩, 0, "c"⟩) 0
        (createInitialState "qq" "uu" .teacher "research" "cc" none none)).generatedAnswer :=
  C3_workflow_never_throws (fun _ => ⟨.ok "a", .ok [], .ok ⟨"b", 0, [], 0⟩, 0, "c"⟩)
    "boom" "qq" "uu" .teacher "research" "cc" none none

end Flow

/-! ## Retrieval candidate window (claim C10) -/

namespace Vec

theorem scoreDescLe_trans (a b c : ScoredChunk)
    (h1 : scoreDescLe a b) (h2 : scoreDescLe b c) : scoreDescLe a c := by
  simp only [scoreDescLe, decide_eq_true_eq] at *
  exact le_trans h2 h1

theorem scoreDescLe_total (a b : ScoredChunk) :
    scoreDescLe a b || scoreDescLe b a := by
  simp only [scoreDescLe, Bool.or_eq_true, decide_eq_true_eq]
  exact le_total b.score a.score

/-- Scoring a constant candidate list gives a constant scored list. -/
theorem scoreChunks_replicate (q : List ℝ) (c : DBChunk) (e : List ℝ) (sc : ℝ)
    (he : c.embedding = some e) (hcos : cosineSimilarity q e = some sc) :
    ∀ n, scoreChunks q (List.replicate n c) =
      .ok (List.replicate n ⟨c.id, c.content, c.documentTitle, sc⟩) := by
  intro n
  induction n with
  | zero => rfl
  | succ n ih =>
      rw [List.replicate_succ, scoreChunks, he]
      dsimp only
      rw [hcos, ih]
      rfl

/-- C10 part 1: retrieval only ever scores the first 100 chunks that match
the hard filters — feeding it just that candidate window changes nothing. -/
theorem retrieveDocuments_take100 (q : List ℝ) (chunks : List DBChunk)
    (o : RetrievalOptions) :
    retrieveDocuments q chunks o =
      retrieveDocuments q ((chunks.filter (matchesFilter o)).take 100) o := by
  rw [retrieveDocuments, retrieveDocuments]
  have hself : ((chunks.filter (matchesFilter o)).take 100).filter (matchesFilter o) =
      (chunks.filter (matchesFilter o)).take 100 :=
    List.filter_eq_self.mpr
      (fun a ha => List.of_mem_filter (List.mem_of_mem_take ha))
  rw [hself, List.take_take, min_self]

/-- C10: the returned top-K list is the best of the 100-chunk candidate
window, and chunks outside the window can be missed entirely. Part (1):
`retrieveDocuments` depends only on the first 100 filter-matching chunks.
Part (2): on success the result is the K highest-scoring entries of that
window — at most `topK` entries, sorted by descending similarity, and
every scored candidate left out scores no better than anything returned.
Part (3): concretely, with 100 stored chunks of similarity 0 followed by
one chunk whose similarity to the query is 1, the returned list consists
of five chunks of similarity 0 — the perfectly matching 101st chunk is
omitted because it lies outside the candidate window. -/
theorem C10_retrieval_candidate_window :
    (∀ (q : List ℝ) (chunks : List DBChunk) (o : RetrievalOptions),
      retrieveDocuments q chunks o =
        retrieveDocuments q ((chunks.filter (matchesFilter o)).take 100) o) ∧
    (∀ (q : List ℝ) (chunks : List DBChunk) (o : RetrievalOptions)
      (scored res : List ScoredChunk),
      scoreChunks q ((chunks.filter (matchesFilter o)).take 100) = .ok scored →
      retrieveDocuments q chunks o = .ok res →
      res.length ≤ o.topK ∧
      List.Pairwise (fun a b => b.score ≤ a.score) res ∧
      (∀ x ∈ res, ∀ y ∈ scored, y ∉ res → y.score ≤ x.score)) ∧
    (retrieveDocuments [(1 : ℝ), 0]
        (List.replicate 100 ⟨"c0", "b0", some [0, 1], "T0", none, none, true⟩ ++
          [⟨"c1", "b1", some [(1 : ℝ), 0], "T1", none, none, true⟩])
        ⟨none, none, .teacher, 5⟩ =
      .ok (List.replicate 5 ⟨"c0", "b0", "T0", 0⟩) ∧
    cosineSimilarity [(1 : ℝ), 0] [(1 : ℝ), 0] = some 1 ∧
    (∀ x ∈ List.replicate 5 (⟨"c0", "b0", "T0", 0⟩ : ScoredChunk), x.score < 1)) := by
  refine ⟨retrieveDocuments_take100, ?_, ?_, ?_, ?_⟩
  · intro q chunks o scored res hscored hres
    rw [retrieveDocuments, hscored] at hres
    simp only [Except.map, Except.ok.injEq] at hres
    subst hres
    have hsorted : (scored.mergeSort scoreDescLe).Pairwise
        (fun a b => scoreDescLe a b) :=
      List.sorted_mergeSort scoreDescLe_trans scoreDescLe_total scored
    refine ⟨?_, ?_, ?_⟩
    · rw [List.length_take]
      exact min_le_left _ _
    · exact (hsorted.sublist (List.take_sublist _ _)).imp
        (fun h => by simpa [scoreDescLe] using h)
    · intro x hx y hy hyn
      have hyM : y ∈ scored.mergeSort scoreDescLe :=
        (List.mergeSort_perm scored scoreDescLe).mem_iff.mpr hy
      have hyTD : y ∈ (scored.mergeSort scoreDescLe).take o.topK ++
          (scored.mergeSort scoreDescLe).drop o.topK := by
        rw [List.take_append_drop]
        exact hyM
      rcases List.mem_append.mp hyTD with hyT | hyD
      · exact absurd hyT hyn
      · have hp := hsorted
        rw [← List.take_append_drop o.topK (scored.mergeSort scoreDescLe)] at hp
        have hrel := (List.pairwise_append.mp hp).2.2 x hx y hyD
        simpa [scoreDescLe] using hrel
  · -- the concrete instance: candidate window of 100 zero-score chunks
    have hfilter : (List.replicate 100
        (⟨"c0", "b0", some [(0 : ℝ), 1], "T0", none, none, true⟩ : DBChunk) ++
          ([⟨"c1", "b1", some [(1 : ℝ), 0], "T1", none, none, true⟩] : List DBChunk)).filter
          (matchesFilter ⟨none, none, .teacher, 5⟩) =
        List.replicate 100 ⟨"c0", "b0", some [(0 : ℝ), 1], "T0", none, none, true⟩ ++
          [⟨"c1", "b1", some [(1 : ℝ), 0], "T1", none, none, true⟩] :=
      List.filter_eq_self.mpr (fun a _ => rfl)
    have htake : (List.replicate 100
        (⟨"c0", "b0", some [(0 : ℝ), 1], "T0", none, none, true⟩ : DBChunk) ++
          ([⟨"c1", "b1", some [(1 : ℝ), 0], "T1", none, none, true⟩] : List DBChunk)).take 100 =
        List.replicate 100 ⟨"c0", "b0", some [(0 : ℝ), 1], "T0", none, none, true⟩ :=
      List.take_left' (List.length_replicate 100 _)
    have hcos0 : cosineSimilarity [(1 : ℝ), 0] [(0 : ℝ), 1] = some 0 := by
      rw [cosineSimilarity]
      norm_num [Real.sqrt_one]
    have hscored := scoreChunks_replicate [(1 : ℝ), 0]
      ⟨"c0", "b0", some [(0 : ℝ), 1], "T0", none, none, true⟩ [(0 : ℝ), 1] 0
      rfl hcos0 100
    have hsortrep : (List.replicate 100
        (⟨"c0", "b0", "T0", 0⟩ : ScoredChunk)).mergeSort scoreDescLe =
        List.replicate 100 ⟨"c0", "b0", "T0", 0⟩ := by
      rw [List.eq_replicate_iff]
      constructor
      · rw [List.length_mergeSort, List.length_replicate]
      · intro b hb
        exact List.eq_of_mem_replicate
          ((List.mergeSort_perm _ scoreDescLe).mem_iff.mp hb)
    rw [retrieveDocuments, hfilter, htake, hscored]
    simp only [Except.map, hsortrep, List.take_replicate]
    norm_num
  · -- the omitted chunk scores 1 against the query
    rw [cosineSimilarity]
    norm_num [Real.sqrt_one]
  · intro x hx
    rw [List.eq_of_mem_replicate hx]
    norm_num

/-- Witness for C10's conditional part at the empty store. -/
theorem C10_retrieval_candidate_window_witness :
    ([] : List ScoredChunk).length ≤ 5 ∧
    List.Pairwise (fun a b : ScoredChunk => b.score ≤ a.score) [] ∧
    (∀ x ∈ ([] : List ScoredChunk), ∀ y ∈ ([] : List ScoredChunk),
      y ∉ ([] : List ScoredChunk) → y.score ≤ x.score) :=
  C10_retrieval_candidate_window.2.1 [] [] ⟨none, none, .teacher, 5⟩ [] []
    rfl (by simp [retrieveDocuments, scoreChunks, Except.map, List.mergeSort_nil])

end Vec

end SchoolRag
